import Mathlib

/-!
Verification development for the genmon-ha-discovery bridge
(src/genmon-ha-discovery.py).

The Python source is shallowly embedded below.  Python `str` values are
Lean `String`s (whose `data` field is a `List Char`); the helper string
methods used by the script (`split`, `strip`, `capitalize`, `replace`,
`join`, substring `in`) are re-implemented faithfully for the ASCII
range the program operates on.  `json.loads` is modelled by a fuel-based
recursive-descent JSON parser with Python's acceptance rules (leading
and trailing JSON whitespace, strict number grammar, NaN and Infinity
constants, duplicate keys keep the last value).  The two regular
expressions of the script are modelled by deterministic matchers proved
equivalent to the regex semantics by construction (the analysis of the
needed backtracking is recorded next to each definition).  The Jinja2
value templates returned by `_get_value_template_and_unit` are
represented by the tagged type `VTemplate`, one tag per distinct
template string produced by the source, together with `renderTemplate`
giving each template's rendering semantics.  The mutable fields of the
`GenmonHADiscovery` object are split into an immutable `Config`
(constructor arguments) and a mutable `DState` threaded through
`processGenmonMessage`, which returns the list of `publish` calls made.
-/

namespace Genmon

/-! ## Character utilities (ASCII case mapping, Python character classes) -/

/-- Python `str.split()` (no separator) splits on this whitespace set;
it is also the ASCII part of the regex class `\s`. -/
def pySpace (c : Char) : Bool :=
  c = ' ' || c = '\t' || c = '\n' || c = '\r' || c = '\x0b' || c = '\x0c'

/-- JSON whitespace skipped by Python's `json.loads` between tokens. -/
def jsonWs (c : Char) : Bool :=
  c = ' ' || c = '\t' || c = '\n' || c = '\r'

/-- One character of `entity_name.replace('_', ' ')`. -/
def u2s (c : Char) : Char :=
  if c = '_' then ' ' else c

/-- One character of `device_name.replace(' ', '_')` and friends. -/
def replChar (a b c : Char) : Char :=
  if c = a then b else c

/-- Python `word.capitalize()`: first character upper-cased, the rest
lower-cased (ASCII behaviour, which is all the program's inputs use). -/
def pyCapitalizeL (w : List Char) : List Char :=
  match w with
  | [] => []
  | c :: cs => c.toUpper :: cs.map Char.toLower

def pyCapitalize (s : String) : String :=
  String.mk (pyCapitalizeL s.data)

/-- Accumulator pass of Python `str.split()` with no separator: split on
runs of whitespace, discarding empty pieces.  `acc` holds the current
word reversed. -/
def wordsAux : List Char → List Char → List (List Char)
  | [], acc => if acc.isEmpty then [] else [acc.reverse]
  | c :: cs, acc =>
    if pySpace c then
      if acc.isEmpty then wordsAux cs [] else acc.reverse :: wordsAux cs []
    else wordsAux cs (c :: acc)

/-- Python `s.split()` (whitespace split, empties dropped). -/
def pyWords (s : List Char) : List (List Char) :=
  wordsAux s []

/-- Python `s.strip()`: leading and trailing whitespace removed. -/
def pyStrip (s : String) : String :=
  String.mk (((s.data.dropWhile pySpace).reverse.dropWhile pySpace).reverse)

/-- Python `sep.join`/`str.split(sep)` for a single-character separator,
as used for `topic.split('/')` and the date component split. -/
def splitChar (sep : Char) : List Char → List (List Char)
  | [] => [[]]
  | c :: cs =>
    match splitChar sep cs with
    | [] => [[]]
    | h :: t => if c = sep then [] :: h :: t else (c :: h) :: t

/-- Python `value.split(sep)` for the two-character separator `": "`:
split at each leftmost non-overlapping occurrence of `a` followed by
`b`. -/
def split2 (a b : Char) : List Char → List (List Char)
  | c :: d :: cs =>
    if c = a ∧ d = b then [] :: split2 a b cs
    else
      match split2 a b (d :: cs) with
      | h :: t => (c :: h) :: t
      | [] => [[c]]
  | s => [s]

/-- Does `n` occur at the head of `h`? -/
def hasPrefixL : List Char → List Char → Bool
  | [], _ => true
  | _ :: _, [] => false
  | c :: cs, d :: ds => c = d && hasPrefixL cs ds

/-- Python substring test `n in h`. -/
def containsSubL (n : List Char) : List Char → Bool
  | [] => hasPrefixL n []
  | c :: cs => hasPrefixL n (c :: cs) || containsSubL n cs

/-- Python substring test on `String`s (`needle in hay`). -/
def containsSub (n h : String) : Bool :=
  containsSubL n.data h.data

/-- The `formatted_name` computation of `_process_genmon_message`:
`'_'.join(word.capitalize() for word in entity_name.replace('_',' ').split())`
followed by removal of the characters `(`, `)`, `[`, `]`. -/
def formattedNameL (e : List Char) : List Char :=
  (List.intercalate ['_'] ((pyWords (e.map u2s)).map pyCapitalizeL)).filter
    (fun c => !(c = '(' || c = ')' || c = '[' || c = ']'))

def formattedName (e : String) : String :=
  String.mk (formattedNameL e.data)

/-! ## JSON values and a model of Python `json.loads` -/

/-- A parsed JSON value.  Numbers keep their source literal: the program
never computes with a JSON number, it only tests dict-ness, key
membership and string equality of the `unit` field, so the literal is
enough (and avoids modelling floating point). -/
inductive Json where
  | null
  | bool (b : Bool)
  | num (lit : String)
  | str (s : String)
  | arr (items : List Json)
  | obj (members : List (String × Json))

/-- Key membership, Python `"value" in data`. -/
def objHasKey (ms : List (String × Json)) (k : String) : Bool :=
  ms.any (fun m => m.1 = k)

/-- Python `data.get(k, None)` on the member list (keys are unique
after parsing, see `setKey`). -/
def objGet (ms : List (String × Json)) (k : String) : Option Json :=
  match ms with
  | [] => none
  | m :: rest => if m.1 = k then some m.2 else objGet rest k

/-- Dict insertion during parsing: a duplicate key overwrites the
earlier value in place, as Python's dict does. -/
def setKey (ms : List (String × Json)) (k : String) (v : Json) : List (String × Json) :=
  match ms with
  | [] => [(k, v)]
  | m :: rest => if m.1 = k then (k, v) :: rest else m :: setKey rest k v

def skipWs (cs : List Char) : List Char :=
  cs.dropWhile jsonWs

def hexVal (c : Char) : Option Nat :=
  if c.isDigit then some (c.toNat - 48)
  else if 97 ≤ c.toNat ∧ c.toNat ≤ 102 then some (c.toNat - 87)
  else if 65 ≤ c.toNat ∧ c.toNat ≤ 70 then some (c.toNat - 55)
  else none

/-- Parse the body of a JSON string literal (the opening quote already
consumed), returning the decoded characters and the rest.  Escapes and
the strict-mode rejection of raw control characters follow Python's
decoder.  A `\uXXXX` escape outside the Unicode scalar range (a lone
surrogate, which Lean `Char` cannot hold) degrades to `Char.ofNat`'s
default; no input relevant here contains one. -/
def parseStrBody : List Char → Option (List Char × List Char)
  | [] => none
  | '"' :: rest => some ([], rest)
  | '\\' :: e :: rest =>
    match e with
    | '"' => (parseStrBody rest).map (fun r => ('"' :: r.1, r.2))
    | '\\' => (parseStrBody rest).map (fun r => ('\\' :: r.1, r.2))
    | '/' => (parseStrBody rest).map (fun r => ('/' :: r.1, r.2))
    | 'b' => (parseStrBody rest).map (fun r => ('\x08' :: r.1, r.2))
    | 'f' => (parseStrBody rest).map (fun r => ('\x0c' :: r.1, r.2))
    | 'n' => (parseStrBody rest).map (fun r => ('\n' :: r.1, r.2))
    | 'r' => (parseStrBody rest).map (fun r => ('\r' :: r.1, r.2))
    | 't' => (parseStrBody rest).map (fun r => ('\t' :: r.1, r.2))
    | 'u' =>
      match rest with
      | a :: b :: c :: d :: rest2 =>
        match hexVal a, hexVal b, hexVal c, hexVal d with
        | some x, some y, some z, some w =>
          let code := 4096 * x + 256 * y + 16 * z + w
          (parseStrBody rest2).map (fun r => (Char.ofNat code :: r.1, r.2))
        | _, _, _, _ => none
      | _ => none
    | _ => none
  | c :: rest =>
    if c.toNat < 32 then none
    else (parseStrBody rest).map (fun r => (c :: r.1, r.2))

/-- JSON number grammar used by Python's decoder:
`-? (0 | [1-9][0-9]*) (\.[0-9]+)? ([eE][+-]?[0-9]+)?`, returning the
literal consumed.  Returns `none` if no number starts here. -/
def parseNum (cs : List Char) : Option (List Char × List Char) :=
  let (sign, cs1) :=
    match cs with
    | '-' :: t => (['-'], t)
    | _ => (([] : List Char), cs)
  match cs1 with
  | c :: t =>
    if c = '0' then
      let (frac, t2) := parseNumFrac t
      some (sign ++ [c] ++ frac, t2)
    else if c.isDigit then
      let (ds, t1) := t.span Char.isDigit
      let (frac, t2) := parseNumFrac t1
      some (sign ++ c :: ds ++ frac, t2)
    else none
  | [] => none
where
  /-- Optional fraction and exponent parts. -/
  parseNumFrac (cs : List Char) : List Char × List Char :=
    let (frac, cs1) :=
      match cs with
      | '.' :: d :: t =>
        if d.isDigit then
          let (ds, t1) := t.span Char.isDigit
          ('.' :: d :: ds, t1)
        else ([], cs)
      | _ => ([], cs)
    let (expo, cs2) :=
      match cs1 with
      | e :: t =>
        if e = 'e' ∨ e = 'E' then
          match t with
          | s :: d :: t1 =>
            if (s = '+' ∨ s = '-') ∧ d.isDigit then
              let (ds, t2) := t1.span Char.isDigit
              ([e, s, d] ++ ds, t2)
            else if s.isDigit then
              let (ds, t2) := (d :: t1).span Char.isDigit
              ([e, s] ++ ds, t2)
            else ([], cs1)
          | [s] => if s.isDigit then ([e, s], []) else ([], cs1)
          | [] => ([], cs1)
        else ([], cs1)
      | [] => ([], cs1)
    (frac ++ expo, cs2)

mutual

/-- Fuel-based JSON value parser modelling `json.loads` (the fuel only
bounds recursion depth; `pyJsonLoads` supplies more fuel than any input
of that length can consume, so running out of fuel coincides with a
parse error). -/
def parseVal : Nat → List Char → Option (Json × List Char)
  | 0, _ => none
  | Nat.succ f, cs =>
    match cs with
    | [] => none
    | '"' :: rest => (parseStrBody rest).map (fun r => (Json.str (String.mk r.1), r.2))
    | '{' :: rest =>
      match skipWs rest with
      | '}' :: rest2 => some (Json.obj [], rest2)
      | rest2 => (parseMembers f [] rest2).map (fun r => (Json.obj r.1, r.2))
    | '[' :: rest =>
      match skipWs rest with
      | ']' :: rest2 => some (Json.arr [], rest2)
      | rest2 => (parseItems f [] rest2).map (fun r => (Json.arr r.1, r.2))
    | 't' :: 'r' :: 'u' :: 'e' :: rest => some (Json.bool true, rest)
    | 'f' :: 'a' :: 'l' :: 's' :: 'e' :: rest => some (Json.bool false, rest)
    | 'n' :: 'u' :: 'l' :: 'l' :: rest => some (Json.null, rest)
    | 'N' :: 'a' :: 'N' :: rest => some (Json.num "NaN", rest)
    | 'I' :: 'n' :: 'f' :: 'i' :: 'n' :: 'i' :: 't' :: 'y' :: rest =>
      some (Json.num "Infinity", rest)
    | '-' :: 'I' :: 'n' :: 'f' :: 'i' :: 'n' :: 'i' :: 't' :: 'y' :: rest =>
      some (Json.num "-Infinity", rest)
    | _ => (parseNum cs).map (fun r => (Json.num (String.mk r.1), r.2))

/-- Members of an object, first key expected at the head (whitespace
already skipped). -/
def parseMembers : Nat → List (String × Json) → List Char → Option (List (String × Json) × List Char)
  | 0, _, _ => none
  | Nat.succ f, acc, cs =>
    match cs with
    | '"' :: rest =>
      match parseStrBody rest with
      | some (k, rest1) =>
        match skipWs rest1 with
        | ':' :: rest2 =>
          match parseVal f (skipWs rest2) with
          | some (v, rest3) =>
            let acc1 := setKey acc (String.mk k) v
            match skipWs rest3 with
            | ',' :: rest4 => parseMembers f acc1 (skipWs rest4)
            | '}' :: rest4 => some (acc1, rest4)
            | _ => none
          | none => none
        | _ => none
      | none => none
    | _ => none

/-- Items of an array, first item expected at the head (whitespace
already skipped). -/
def parseItems : Nat → List Json → List Char → Option (List Json × List Char)
  | 0, _, _ => none
  | Nat.succ f, acc, cs =>
    match parseVal f cs with
    | some (v, rest) =>
      match skipWs rest with
      | ',' :: rest1 => parseItems f (acc ++ [v]) (skipWs rest1)
      | ']' :: rest1 => some (acc ++ [v], rest1)
      | _ => none
    | none => none

end

/-- Model of `json.loads(payload)`: skip leading whitespace, parse one
value, require only whitespace to remain (Python's "Extra data" check).
`none` is Python's `JSONDecodeError`. -/
def pyJsonLoads (s : String) : Option Json :=
  match parseVal (2 * s.data.length + 8) (skipWs s.data) with
  | some (j, rest) => if skipWs rest = [] then some j else none
  | none => none

/-- The first branch of `_get_value_template_and_unit`: payload parses
as a JSON object with a `"value"` key; the result is `data.get("unit",
None)`.  A JSON `null` unit becomes Python `None`, identical to a
missing key, so it is collapsed to `none` here. -/
def jsonValueUnit (p : String) : Option (Option Json) :=
  match pyJsonLoads p with
  | some (Json.obj ms) =>
    if objHasKey ms "value" then
      some (match objGet ms "unit" with
            | some Json.null => none
            | u => u)
    else none
  | _ => none

/-! ## Models of the two regular expressions

`_process_genmon_message` uses
`re.match(r".*?(\d{1,2}/\d{1,2}/\d{4})", payload)` and
`re.match(r".*?\s*(\d+\.?\d*)\s*([a-zA-Z%]+)$", payload)`.
Both matchers below implement the leftmost-match semantics directly.
The regex quantifier backtracking is deterministic for these patterns:
after `\d{1,2}` the next token is the literal `/`, so when two digits
are available the one-digit alternative can never succeed (the second
digit is not `/`); similarly every greedy run in the numeric pattern is
followed by a token that cannot match the characters given back, so the
maximal run is the only viable choice at a given start position.  The
non-greedy `.*?` prefix means the group may start at any position
reachable through non-newline characters (`.` does not match `\n`),
scanned left to right. -/

/-- Take at most two leading digits. -/
def takeDigits2 : List Char → List Char × List Char
  | a :: b :: r =>
    if a.isDigit then
      if b.isDigit then ([a, b], r) else ([a], b :: r)
    else ([], a :: b :: r)
  | [a] => if a.isDigit then ([a], []) else ([], [a])
  | [] => ([], [])

/-- Match `\d{1,2}/\d{1,2}/\d{4}` at the head, returning the matched
substring (the regex group). -/
def dateAt (cs : List Char) : Option (List Char) :=
  match takeDigits2 cs with
  | (d1, r1) =>
    if d1.isEmpty then none
    else
      match r1 with
      | '/' :: r2 =>
        match takeDigits2 r2 with
        | (d2, r3) =>
          if d2.isEmpty then none
          else
            match r3 with
            | '/' :: y1 :: y2 :: y3 :: y4 :: _ =>
              if y1.isDigit && y2.isDigit && y3.isDigit && y4.isDigit then
                some (d1 ++ '/' :: d2 ++ '/' :: [y1, y2, y3, y4])
              else none
            | _ => none
      | _ => none

/-- Leftmost match of `.*?(\d{1,2}/\d{1,2}/\d{4})`: try each start
position left to right; `.*?` cannot cross a newline. -/
def dateSearchL : List Char → Option (List Char)
  | [] => none
  | c :: cs =>
    match dateAt (c :: cs) with
    | some d => some d
    | none => if c = '\n' then none else dateSearchL cs

/-- Match `(\d+\.?\d*)\s*([a-zA-Z%]+)$` at the head, returning the two
groups (number, unit).  `$` matches the end of the string or just
before a single final newline, as in Python without `re.MULTILINE`. -/
def matchNumFrom (cs : List Char) : Option (List Char × List Char) :=
  let (ds, r1) := cs.span Char.isDigit
  if ds.isEmpty then none
  else
    let fr :=
      match r1 with
      | '.' :: t =>
        match t.span Char.isDigit with
        | (fs, r) => ('.' :: fs, r)
      | _ => ([], r1)
    let r3 := fr.2.dropWhile pySpace
    match r3.span (fun c => c.isAlpha || c = '%') with
    | (us, r4) =>
      if us.isEmpty then none
      else if r4 = [] ∨ r4 = ['\n'] then some (ds ++ fr.1, us) else none

/-- Scan inside the `\s*` after `.*?` has been stopped by a newline:
further start positions are reachable only through whitespace. -/
def numSearchW : List Char → Option (List Char × List Char)
  | [] => none
  | c :: cs =>
    match matchNumFrom (c :: cs) with
    | some r => some r
    | none => if pySpace c then numSearchW cs else none

/-- Leftmost match of `.*?\s*(\d+\.?\d*)\s*([a-zA-Z%]+)$`: scan start
positions left to right through non-newline characters; at a newline
only a whitespace run (matched by `\s*`) can extend the reach. -/
def numSearchA : List Char → Option (List Char × List Char)
  | [] => none
  | c :: cs =>
    match matchNumFrom (c :: cs) with
    | some r => some r
    | none => if c = '\n' then numSearchW cs else numSearchA cs

/-! ## Value templates -/

/-- The value-template strings produced by `_get_value_template_and_unit`
and `_register_ha_entity`, one tag per distinct template. -/
inductive VTemplate where
  /-- The JSON template extracting `value_json.value`. -/
  | jsonValue
  /-- The date template: find the first `\d{1,2}/\d{1,2}/\d{4}` in the
  value, reorder to year-month-day with zero-padded month and day,
  else pass the value through. -/
  | dateExtract
  /-- The numeric template: first regex capture of the number before
  the trailing unit. -/
  | numericExtract
  /-- The colon template: second field of `value.split(': ')` when the
  value contains `": "` and the split has more than one part, else the
  raw value. -/
  | colonSplit
  /-- The default pass-through template. -/
  | raw
  /-- The fixed binary-sensor mapping template installed by
  `_register_ha_entity` for binary sensors. -/
  | boolMap
  deriving DecidableEq

/-- Digits to a number, for the template's `'%02d' | format(part | int)`. -/
def natOfDigits (ds : List Char) : Nat :=
  ds.foldl (fun a c => 10 * a + (c.toNat - 48)) 0

/-- Zero-pad a one-or-two digit component to two digits. -/
def pad2 (ds : List Char) : String :=
  let n := natOfDigits ds
  if n < 10 then "0" ++ toString n else toString n

/-- How a Jinja expression prints a JSON scalar.  Number literals are
printed as written (Python would normalise float notation; no claim
depends on it) and containers are not needed by any claim. -/
def jsonDisplay : Json → String
  | Json.str s => s
  | Json.num l => l
  | Json.bool true => "True"
  | Json.bool false => "False"
  | Json.null => "None"
  | Json.arr _ => ""
  | Json.obj _ => ""

/-- The fixed token list of the binary-sensor template. -/
def boolOnTokens : List String :=
  ["Yes", "ON", "Online", "True", "true", "1"]

/-- Rendering semantics of each template applied to a state value (the
downstream platform applies the stored template to every later payload
of the topic).  Surrounding Jinja whitespace and the error behaviour of
`| first` on an empty list are abstracted: the meaningful rendered
value is returned. -/
def renderTemplate (t : VTemplate) (value : String) : String :=
  match t with
  | .raw => value
  | .jsonValue =>
    match pyJsonLoads value with
    | some (Json.obj ms) =>
      match objGet ms "value" with
      | some v => jsonDisplay v
      | none => ""
    | _ => ""
  | .dateExtract =>
    match dateSearchL value.data with
    | some d =>
      match splitChar '/' d with
      | [m, dd, y] => String.mk y ++ "-" ++ pad2 m ++ "-" ++ pad2 dd
      | _ => value
    | none => value
  | .numericExtract =>
    match numSearchA value.data with
    | some r => String.mk r.1
    | none => ""
  | .colonSplit =>
    let parts := split2 ':' ' ' value.data
    if containsSubL [':', ' '] value.data && parts.length > 1 then
      String.mk (parts.getD 1 [])
    else value
  | .boolMap => if value ∈ boolOnTokens then "ON" else "OFF"

/-- `_get_value_template_and_unit`: the ordered classification cascade.
The unit is a Python object: a JSON value from the first branch
(`data.get("unit", None)`) or the captured unit string from the numeric
branch. -/
def getValueTemplateAndUnit (payload : String) : VTemplate × Option Json :=
  match jsonValueUnit payload with
  | some u => (.jsonValue, u)
  | none =>
    if (dateSearchL payload.data).isSome then (.dateExtract, none)
    else
      match numSearchA payload.data with
      | some r => (.numericExtract, some (Json.str (String.mk r.2)))
      | none =>
        if containsSubL [':', ' '] payload.data then (.colonSplit, none)
        else (.raw, none)

/-! ## Entity pipeline -/

/-- Constructor arguments of `GenmonHADiscovery` used by the message
path (defaults as in `__init__`).  `ha_device_model` is the initial
model, later overwritten in `DState`. -/
structure Config where
  mqtt_discovery_prefix : String := "homeassistant"
  ha_device_id : String := "Genmon_Generator"
  ha_device_name : String := "Generator"
  ha_device_manufacturer : String := "GenMon"
  ha_device_model : String := "Generator Monitor"
  ha_origin : String := "Generator Monitor"
  deriving DecidableEq

/-- The mutable fields of the object touched by message processing. -/
structure DState where
  ha_device_model : String
  ha_serial_number : String
  ha_sw_version : String
  registered_entities : List String
  deriving DecidableEq

/-- State after `__init__`. -/
def initState (cfg : Config) : DState :=
  ⟨cfg.ha_device_model, "Undefined", "Undefined", []⟩

/-- The `device` block embedded in every discovery config. -/
structure DeviceInfo where
  identifiers : List String
  name : String
  manufacturer : String
  model : String
  serial_number : String
  sw_version : String
  deriving DecidableEq

/-- The `origin` block embedded in every discovery config. -/
structure OriginInfo where
  name : String
  sw_version : String
  support_url : String
  deriving DecidableEq

/-- The discovery config dict built by `_register_ha_entity`; fields
absent for a kind stay `none`. -/
structure EntityConfig where
  name : String
  unique_id : String
  state_topic : String
  value_template : VTemplate
  device : DeviceInfo
  origin : OriginInfo
  default_entity_id : String
  payload_on : Option String := none
  payload_off : Option String := none
  command_topic : Option String := none
  device_class : Option String := none
  state_class : Option String := none
  unit_of_measurement : Option Json := none

/-- One `self.client.publish(discovery_topic, json.dumps(config),
retain=True)` call. -/
structure PubRecord where
  entity_type : String
  discovery_topic : String
  config : EntityConfig

def boolTokens : List String :=
  ["Yes", "No", "Online", "Offline", "True", "False", "ON", "OFF"]

/-- The entity-type cascade of `_process_genmon_message`. -/
def entityTypeOf (entity_name payload : String) : String :=
  if pyStrip payload ∈ boolTokens then "binary_sensor"
  else if entity_name = "state" ∨ entity_name = "switch_state" then "binary_sensor"
  else if entity_name = "command" then "switch"
  else "sensor"

def topicParts (topic : String) : List String :=
  (splitChar '/' topic.data).map String.mk

/-- `device_id = self.ha_device_id if self.ha_device_id else "genmon_generator"`. -/
def deviceIdOf (cfg : Config) : String :=
  if cfg.ha_device_id = "" then "genmon_generator" else cfg.ha_device_id

def categoryOf (t : String) : String :=
  (topicParts t).getD 1 ""

/-- `entity_name = '_'.join(parts[2:])`. -/
def entityNameOf (t : String) : String :=
  String.intercalate "_" ((topicParts t).drop 2)

def replaceCharS (a b : Char) (s : String) : String :=
  String.mk (s.data.map (replChar a b))

def uniqueIdOf (cfg : Config) (t : String) : String :=
  deviceIdOf cfg ++ "_" ++ pyCapitalize (categoryOf t) ++ "_" ++ formattedName (entityNameOf t)

def deviceNameOf (cfg : Config) : String :=
  if cfg.ha_device_name = "" then "Generator" else cfg.ha_device_name

def objectIdOf (cfg : Config) (t : String) : String :=
  replaceCharS ' ' '_' (deviceNameOf cfg) ++ "_" ++ pyCapitalize (categoryOf t) ++ "_"
    ++ formattedName (entityNameOf t)

/-- Python string equality to a JSON unit object (`unit == "kWh"`):
true only when the unit is that very string. -/
def unitEqStr (u : Option Json) (s : String) : Bool :=
  match u with
  | some (Json.str t) => t = s
  | _ => false

/-- Is a JSON number literal non-zero?  The mantissa decides. -/
def numLitTruthy (lit : String) : Bool :=
  !((lit.data.takeWhile (fun c => !(c = 'e' || c = 'E'))).all
      (fun c => c = '0' || c = '-' || c = '+' || c = '.'))

/-- Python truthiness of a JSON value, for `if unit:`. -/
def jsonTruthy : Json → Bool
  | Json.null => false
  | Json.bool b => b
  | Json.str s => !(s = "")
  | Json.num l => numLitTruthy l
  | Json.arr l => !l.isEmpty
  | Json.obj m => !m.isEmpty

def optUnitTruthy (u : Option Json) : Bool :=
  match u with
  | none => false
  | some j => jsonTruthy j

/-- Case-insensitive (on the lowered name) substring tests:
`any(x in entity_name.lower() for x in needles)`. -/
def anySubLower (needles : List String) (name : String) : Bool :=
  needles.any (fun x => containsSubL x.data (name.data.map Char.toLower))

/-- Device-class/state-class inference for sensors
(`_register_ha_entity`, sensor branch). -/
def sensorClassInfo (entity_name : String) (unit : Option Json) : Option String × Option String :=
  if anySubLower ["due", "next", "date"] entity_name then (some "date", none)
  else if unitEqStr unit "kWh" then (some "energy", some "total_increasing")
  else if unitEqStr unit "h"
      || (anySubLower ["runtime", "run_hours", "run hours", "total_run_hours"] entity_name
          && unit.isNone) then
    (some "duration", some "total_increasing")
  else (none, none)

/-- `config["name"]`: capitalized words of `f"{category} {entity_name.replace('_',' ')}"`. -/
def displayNameOf (category entity_name : String) : String :=
  String.intercalate " "
    ((pyWords (category ++ " " ++ replaceCharS '_' ' ' entity_name).data).map
      (fun w => String.mk (pyCapitalizeL w)))

/-- `_register_ha_entity`: build the discovery config for one entity
and the publish that carries it. -/
def registerHaEntity (cfg : Config) (entity_type category entity_name unique_id object_id : String)
    (device : DeviceInfo) (origin : OriginInfo) (state_topic : String)
    (vt : VTemplate) (unit : Option Json) : PubRecord :=
  let base : EntityConfig :=
    { name := displayNameOf category entity_name
      unique_id := unique_id
      state_topic := state_topic
      value_template := vt
      device := device
      origin := origin
      default_entity_id := entity_type ++ "." ++ object_id }
  let conf :=
    if entity_type = "binary_sensor" then
      { base with
          value_template := VTemplate.boolMap
          payload_on := some "ON"
          payload_off := some "OFF" }
    else if entity_type = "switch" then
      { base with
          command_topic := some (cfg.mqtt_discovery_prefix ++ "/" ++ entity_type ++ "/"
            ++ cfg.ha_device_id ++ "/" ++ unique_id ++ "/set")
          payload_on := some "ON"
          payload_off := some "OFF" }
    else if entity_type = "sensor" then
      { base with
          device_class := (sensorClassInfo entity_name unit).1
          state_class := (sensorClassInfo entity_name unit).2
          unit_of_measurement := if optUnitTruthy unit then unit else none }
    else base
  { entity_type := entity_type
    discovery_topic := cfg.mqtt_discovery_prefix ++ "/" ++ entity_type ++ "/"
      ++ cfg.ha_device_id ++ "/" ++ unique_id ++ "/config"
    config := conf }

def originInfoOf (cfg : Config) : OriginInfo :=
  ⟨cfg.ha_origin, "Undefined", "https://github.com/jgyates/genmon"⟩

def deviceInfoOf (cfg : Config) (st : DState) : DeviceInfo :=
  ⟨[deviceIdOf cfg], cfg.ha_device_name, cfg.ha_device_manufacturer,
    st.ha_device_model, st.ha_serial_number, st.ha_sw_version⟩

/-- State after the `Firmware_Version` special case (executed when the
formatted name contains it and neither earlier special case matched). -/
def fwState (st : DState) (t p : String) : DState :=
  if containsSub "Firmware_Version" (formattedName (entityNameOf t)) then
    { st with ha_sw_version := p }
  else st

/-- The single publish emitted for a fresh identity. -/
def mkPub (cfg : Config) (st1 : DState) (t p : String) : PubRecord :=
  registerHaEntity cfg (entityTypeOf (entityNameOf t) p) (categoryOf t) (entityNameOf t)
    (uniqueIdOf cfg t) (objectIdOf cfg t) (deviceInfoOf cfg st1) (originInfoOf cfg) t
    (getValueTemplateAndUnit p).1 (getValueTemplateAndUnit p).2

/-- `_process_genmon_message`: returns the successor state and the list
of publish calls made (always zero or one).  The source's local
variables are inlined through the named helper functions above; the
local rebinding of `self` state after the firmware special case is
`fwState st topic payload`. -/
def processGenmonMessage (cfg : Config) (st : DState) (topic payload : String) :
    DState × List PubRecord :=
  if (topicParts topic).length < 3 then (st, [])
  else if containsSub "Controller_Detected" (formattedName (entityNameOf topic)) then
    ({ st with ha_device_model := payload }, [])
  else if containsSub "Generator_Serial_Number" (formattedName (entityNameOf topic)) then
    ({ st with ha_serial_number := payload }, [])
  else if uniqueIdOf cfg topic ∈ (fwState st topic payload).registered_entities then
    (fwState st topic payload, [])
  else
    ({ fwState st topic payload with
        registered_entities := uniqueIdOf cfg topic :: (fwState st topic payload).registered_entities },
      [mkPub cfg (fwState st topic payload) topic payload])

/-- Default configuration (the `__init__` defaults). -/
def cfg0 : Config := {}

/-- Default initial state. -/
def st0 : DState := initState cfg0

/-! ## Character-level lemmas for case insensitivity -/

theorem toNat_ofNat_valid {n : Nat} (h : n.isValidChar) : (Char.ofNat n).toNat = n := by
  rw [Char.ofNat, dif_pos h]; rfl

theorem char_toNat_inj {c d : Char} (h : c.toNat = d.toNat) : c = d :=
  Char.ext (UInt32.toNat.inj h)

theorem char_eq_iff {c d : Char} : c = d ↔ c.toNat = d.toNat :=
  ⟨fun h => h ▸ rfl, char_toNat_inj⟩

theorem toNat_toLower (c : Char) :
    (Char.toLower c).toNat = if c.toNat ≥ 65 ∧ c.toNat ≤ 90 then c.toNat + 32 else c.toNat := by
  simp only [Char.toLower]
  split_ifs with h
  · exact toNat_ofNat_valid (Or.inl (by omega))
  · rfl

theorem toNat_toUpper (c : Char) :
    (Char.toUpper c).toNat = if c.toNat ≥ 97 ∧ c.toNat ≤ 122 then c.toNat - 32 else c.toNat := by
  simp only [Char.toUpper]
  split_ifs with h
  · exact toNat_ofNat_valid (Or.inl (by omega))
  · rfl

theorem toLower_toLower (c : Char) : Char.toLower (Char.toLower c) = Char.toLower c := by
  apply char_toNat_inj
  simp only [toNat_toLower]
  split_ifs <;> omega

theorem toUpper_toLower (c : Char) : Char.toUpper (Char.toLower c) = Char.toUpper c := by
  apply char_toNat_inj
  simp only [toNat_toUpper, toNat_toLower]
  split_ifs <;> omega

theorem pySpace_true_iff (c : Char) :
    pySpace c = true ↔
      c.toNat = 32 ∨ c.toNat = 9 ∨ c.toNat = 10 ∨ c.toNat = 13 ∨ c.toNat = 11 ∨ c.toNat = 12 := by
  simp only [pySpace, Bool.or_eq_true, decide_eq_true_eq, char_eq_iff]
  show ((((c.toNat = 32 ∨ c.toNat = 9) ∨ c.toNat = 10) ∨ c.toNat = 13) ∨ c.toNat = 11)
      ∨ c.toNat = 12 ↔ _
  tauto

theorem pySpace_toLower (c : Char) : pySpace (Char.toLower c) = pySpace c := by
  by_cases h : pySpace c = true
  · rw [h]
    rw [pySpace_true_iff] at h ⊢
    rw [toNat_toLower]
    split_ifs with hr <;> omega
  · rw [Bool.not_eq_true] at h
    rw [h]
    rw [Bool.eq_false_iff]
    intro hl
    rw [pySpace_true_iff, toNat_toLower] at hl
    have h' : ¬(c.toNat = 32 ∨ c.toNat = 9 ∨ c.toNat = 10 ∨ c.toNat = 13 ∨ c.toNat = 11
        ∨ c.toNat = 12) := by
      intro hc
      exact absurd ((pySpace_true_iff c).mpr hc) (by rw [h]; simp)
    split_ifs at hl <;> omega

theorem u2s_toLower (c : Char) : u2s (Char.toLower c) = Char.toLower (u2s c) := by
  by_cases h : c = '_'
  · subst h; rfl
  · have h2 : u2s c = c := if_neg h
    rw [h2]
    show (if Char.toLower c = '_' then ' ' else Char.toLower c) = Char.toLower c
    rw [if_neg]
    intro hl
    apply h
    apply char_toNat_inj
    have h95 := congrArg Char.toNat hl
    rw [toNat_toLower, show ('_').toNat = 95 from rfl] at h95
    have : c.toNat = 95 := by split_ifs at h95 <;> omega
    exact this

/-! ## The formatted name depends only on the lower-cased input -/

theorem pyCapitalizeL_toLower (w : List Char) :
    pyCapitalizeL (w.map Char.toLower) = pyCapitalizeL w := by
  cases w with
  | nil => rfl
  | cons c cs =>
    simp only [List.map_cons, pyCapitalizeL, List.map_map]
    refine congrArg₂ _ (toUpper_toLower c) ?_
    exact List.map_congr_left (fun a _ => toLower_toLower a)

theorem wordsAux_toLower (s : List Char) : ∀ acc : List Char,
    wordsAux (s.map Char.toLower) (acc.map Char.toLower)
      = (wordsAux s acc).map (List.map Char.toLower) := by
  induction s with
  | nil =>
    intro acc
    simp only [List.map_nil, wordsAux]
    by_cases h : acc.isEmpty
    · rw [if_pos h, if_pos (by simpa using h)]
      rfl
    · rw [if_neg h, if_neg (by simpa using h)]
      simp
  | cons c cs ih =>
    intro acc
    simp only [List.map_cons, wordsAux, pySpace_toLower]
    by_cases hsp : pySpace c = true
    · rw [if_pos hsp, if_pos hsp]
      by_cases h : acc.isEmpty
      · rw [if_pos h, if_pos (by simpa using h)]
        exact ih []
      · rw [if_neg h, if_neg (by simpa using h)]
        simp only [List.map_cons]
        rw [← List.map_reverse, ← ih []]
        rfl
    · rw [if_neg hsp, if_neg hsp]
      exact ih (c :: acc)

theorem pyWords_toLower (s : List Char) :
    pyWords (s.map Char.toLower) = (pyWords s).map (List.map Char.toLower) :=
  wordsAux_toLower s []

theorem formattedNameL_toLower (e : List Char) :
    formattedNameL (e.map Char.toLower) = formattedNameL e := by
  unfold formattedNameL
  have h1 : (e.map Char.toLower).map u2s = (e.map u2s).map Char.toLower := by
    rw [List.map_map, List.map_map]
    exact List.map_congr_left (fun a _ => u2s_toLower a)
  rw [h1, pyWords_toLower, List.map_map]
  have h2 : (pyWords (e.map u2s)).map (pyCapitalizeL ∘ List.map Char.toLower)
      = (pyWords (e.map u2s)).map pyCapitalizeL :=
    List.map_congr_left (fun a _ => pyCapitalizeL_toLower a)
  rw [h2]

/-- The formatted signal name is determined by the lower-cased entity
name: topics differing only in letter case format identically. -/
theorem formattedName_congr {e1 e2 : String}
    (h : e1.data.map Char.toLower = e2.data.map Char.toLower) :
    formattedName e1 = formattedName e2 := by
  unfold formattedName
  rw [← formattedNameL_toLower e1.data, ← formattedNameL_toLower e2.data, h]

/-! ## Unfolding lemmas for the message-processing path -/

theorem bool_ne_true {b : Bool} (h : b = false) : ¬ b = true := by
  simp [h]

theorem fwState_registered (st : DState) (t p : String) :
    (fwState st t p).registered_entities = st.registered_entities := by
  unfold fwState
  split <;> rfl

theorem fwState_of_false {st : DState} {t p : String}
    (h : containsSub "Firmware_Version" (formattedName (entityNameOf t)) = false) :
    fwState st t p = st := by
  unfold fwState
  rw [if_neg (bool_ne_true h)]

theorem fwState_sw_of_true {st : DState} {t p : String}
    (h : containsSub "Firmware_Version" (formattedName (entityNameOf t)) = true) :
    (fwState st t p).ha_sw_version = p := by
  unfold fwState
  rw [if_pos h]

theorem process_short {cfg : Config} {st : DState} {t p : String}
    (h : (topicParts t).length < 3) :
    processGenmonMessage cfg st t p = (st, []) := by
  unfold processGenmonMessage
  rw [if_pos h]

theorem process_controller {cfg : Config} {st : DState} {t p : String}
    (h3 : ¬ (topicParts t).length < 3)
    (hc : containsSub "Controller_Detected" (formattedName (entityNameOf t)) = true) :
    processGenmonMessage cfg st t p = ({ st with ha_device_model := p }, []) := by
  unfold processGenmonMessage
  rw [if_neg h3, if_pos hc]

theorem process_serial {cfg : Config} {st : DState} {t p : String}
    (h3 : ¬ (topicParts t).length < 3)
    (hc : containsSub "Controller_Detected" (formattedName (entityNameOf t)) = false)
    (hs : containsSub "Generator_Serial_Number" (formattedName (entityNameOf t)) = true) :
    processGenmonMessage cfg st t p = ({ st with ha_serial_number := p }, []) := by
  unfold processGenmonMessage
  rw [if_neg h3, if_neg (bool_ne_true hc), if_pos hs]

theorem process_registered {cfg : Config} {st : DState} {t p : String}
    (h3 : ¬ (topicParts t).length < 3)
    (hc : containsSub "Controller_Detected" (formattedName (entityNameOf t)) = false)
    (hs : containsSub "Generator_Serial_Number" (formattedName (entityNameOf t)) = false)
    (hin : uniqueIdOf cfg t ∈ st.registered_entities) :
    processGenmonMessage cfg st t p = (fwState st t p, []) := by
  unfold processGenmonMessage
  rw [if_neg h3, if_neg (bool_ne_true hc), if_neg (bool_ne_true hs),
    if_pos (by rw [fwState_registered]; exact hin)]

theorem process_fresh {cfg : Config} {st : DState} {t p : String}
    (h3 : ¬ (topicParts t).length < 3)
    (hc : containsSub "Controller_Detected" (formattedName (entityNameOf t)) = false)
    (hs : containsSub "Generator_Serial_Number" (formattedName (entityNameOf t)) = false)
    (hni : uniqueIdOf cfg t ∉ st.registered_entities) :
    processGenmonMessage cfg st t p
      = ({ fwState st t p with
            registered_entities := uniqueIdOf cfg t :: st.registered_entities },
          [mkPub cfg (fwState st t p) t p]) := by
  unfold processGenmonMessage
  rw [if_neg h3, if_neg (bool_ne_true hc), if_neg (bool_ne_true hs),
    if_neg (by rw [fwState_registered]; exact hni), fwState_registered]

/-- Every publish emitted by a processing step is the single descriptor
built from the post-special-case state. -/
theorem mem_pubs {cfg : Config} {st : DState} {t p : String} {r : PubRecord}
    (h : r ∈ (processGenmonMessage cfg st t p).2) :
    r = mkPub cfg (fwState st t p) t p := by
  by_cases h3 : (topicParts t).length < 3
  · rw [process_short h3] at h
    exact absurd h (List.not_mem_nil r)
  by_cases hc : containsSub "Controller_Detected" (formattedName (entityNameOf t)) = true
  · rw [process_controller h3 hc] at h
    exact absurd h (List.not_mem_nil r)
  rw [Bool.not_eq_true] at hc
  by_cases hs : containsSub "Generator_Serial_Number" (formattedName (entityNameOf t)) = true
  · rw [process_serial h3 hc hs] at h
    exact absurd h (List.not_mem_nil r)
  rw [Bool.not_eq_true] at hs
  by_cases hin : uniqueIdOf cfg t ∈ st.registered_entities
  · rw [process_registered h3 hc hs hin] at h
    exact absurd h (List.not_mem_nil r)
  · rw [process_fresh h3 hc hs hin] at h
    exact (List.mem_singleton.mp h)

/-- After a processing step that got past the absorbing special cases,
the derived identity is registered. -/
theorem process_registers {cfg : Config} {st : DState} {t p : String}
    (h3 : ¬ (topicParts t).length < 3)
    (hc : containsSub "Controller_Detected" (formattedName (entityNameOf t)) = false)
    (hs : containsSub "Generator_Serial_Number" (formattedName (entityNameOf t)) = false) :
    uniqueIdOf cfg t ∈ (processGenmonMessage cfg st t p).1.registered_entities := by
  by_cases hin : uniqueIdOf cfg t ∈ st.registered_entities
  · rw [process_registered h3 hc hs hin]
    rw [fwState_registered]
    exact hin
  · rw [process_fresh h3 hc hs hin]
    exact List.mem_cons_self _ _

/-- The firmware version of the post-state, for messages that got past
the two absorbing special cases. -/
theorem process_sw {cfg : Config} {st : DState} {t p : String}
    (h3 : ¬ (topicParts t).length < 3)
    (hc : containsSub "Controller_Detected" (formattedName (entityNameOf t)) = false)
    (hs : containsSub "Generator_Serial_Number" (formattedName (entityNameOf t)) = false) :
    (processGenmonMessage cfg st t p).1.ha_sw_version = (fwState st t p).ha_sw_version := by
  by_cases hin : uniqueIdOf cfg t ∈ st.registered_entities
  · rw [process_registered h3 hc hs hin]
  · rw [process_fresh h3 hc hs hin]

/-! ## Projections of the built descriptor -/

theorem mkPub_entity_type (cfg : Config) (st : DState) (t p : String) :
    (mkPub cfg st t p).entity_type = entityTypeOf (entityNameOf t) p := rfl

theorem mkPub_unique_id (cfg : Config) (st : DState) (t p : String) :
    (mkPub cfg st t p).config.unique_id = uniqueIdOf cfg t := by
  simp only [mkPub, registerHaEntity]
  split_ifs <;> rfl

theorem mkPub_device (cfg : Config) (st : DState) (t p : String) :
    (mkPub cfg st t p).config.device = deviceInfoOf cfg st := by
  simp only [mkPub, registerHaEntity]
  split_ifs <;> rfl

theorem mkPub_binary {cfg : Config} {st : DState} {t p : String}
    (he : entityTypeOf (entityNameOf t) p = "binary_sensor") :
    (mkPub cfg st t p).config.value_template = VTemplate.boolMap
      ∧ (mkPub cfg st t p).config.payload_on = some "ON"
      ∧ (mkPub cfg st t p).config.payload_off = some "OFF" := by
  simp only [mkPub, registerHaEntity]
  rw [if_pos he]
  exact ⟨rfl, rfl, rfl⟩

theorem mkPub_sensor {cfg : Config} {st : DState} {t p : String}
    (he : entityTypeOf (entityNameOf t) p = "sensor") :
    (mkPub cfg st t p).config.device_class
        = (sensorClassInfo (entityNameOf t) (getValueTemplateAndUnit p).2).1
      ∧ (mkPub cfg st t p).config.state_class
        = (sensorClassInfo (entityNameOf t) (getValueTemplateAndUnit p).2).2 := by
  simp only [mkPub, registerHaEntity]
  rw [if_neg (by rw [he]; decide), if_neg (by rw [he]; decide), if_pos he]
  exact ⟨rfl, rfl⟩

/-! ## Claim theorems -/

/-- Claim C1: the payload classifier evaluates its shapes in the fixed
order JSON-with-value-key, date pattern, numeric-with-unit suffix,
colon-delimited key/value, raw default, and the first matching shape
wins; for the payload "Battery Check Due: 12/29/2025" (which also
satisfies the colon-delimited shape) the date pattern wins and the
resulting template renders the date reordered as "2025-12-29". -/
theorem c1_cascade_order :
    (∀ p : String,
      ((getValueTemplateAndUnit p).1 = VTemplate.jsonValue ↔
          (jsonValueUnit p).isSome = true)
      ∧ ((getValueTemplateAndUnit p).1 = VTemplate.dateExtract ↔
          (jsonValueUnit p).isSome = false ∧ (dateSearchL p.data).isSome = true)
      ∧ ((getValueTemplateAndUnit p).1 = VTemplate.numericExtract ↔
          (jsonValueUnit p).isSome = false ∧ (dateSearchL p.data).isSome = false
            ∧ (numSearchA p.data).isSome = true)
      ∧ ((getValueTemplateAndUnit p).1 = VTemplate.colonSplit ↔
          (jsonValueUnit p).isSome = false ∧ (dateSearchL p.data).isSome = false
            ∧ (numSearchA p.data).isSome = false ∧ containsSubL [':', ' '] p.data = true)
      ∧ ((getValueTemplateAndUnit p).1 = VTemplate.raw ↔
          (jsonValueUnit p).isSome = false ∧ (dateSearchL p.data).isSome = false
            ∧ (numSearchA p.data).isSome = false ∧ containsSubL [':', ' '] p.data = false))
    ∧ getValueTemplateAndUnit "Battery Check Due: 12/29/2025" = (VTemplate.dateExtract, none)
    ∧ containsSubL [':', ' '] "Battery Check Due: 12/29/2025".data = true
    ∧ renderTemplate VTemplate.dateExtract "Battery Check Due: 12/29/2025" = "2025-12-29" := by
  refine ⟨fun p => ?_, rfl, rfl, rfl⟩
  unfold getValueTemplateAndUnit
  rcases hj : jsonValueUnit p with _ | u
  · rcases hd : dateSearchL p.data with _ | d
    · rcases hn : numSearchA p.data with _ | r
      · by_cases hcol : containsSubL [':', ' '] p.data = true
        · simp [hd, hn, hcol]
        · rw [Bool.not_eq_true] at hcol
          simp [hd, hn, hcol]
      · simp [hd, hn]
    · simp [hd]
  · simp

/-- Claim C2: processing the same topic twice results in exactly one
publish for its discovery descriptor: the first processing (of a fresh,
non-absorbed identity) registers the identity and emits one publish,
the second emits none and leaves the registered set unchanged. -/
theorem c2_register_idempotent (cfg : Config) (st : DState) (t p : String)
    (h3 : ¬ (topicParts t).length < 3)
    (hc : containsSub "Controller_Detected" (formattedName (entityNameOf t)) = false)
    (hs : containsSub "Generator_Serial_Number" (formattedName (entityNameOf t)) = false)
    (hni : uniqueIdOf cfg t ∉ st.registered_entities) :
    (processGenmonMessage cfg st t p).2.length = 1
      ∧ (processGenmonMessage cfg (processGenmonMessage cfg st t p).1 t p).2 = []
      ∧ (processGenmonMessage cfg (processGenmonMessage cfg st t p).1 t p).1.registered_entities
          = (processGenmonMessage cfg st t p).1.registered_entities := by
  have hreg : uniqueIdOf cfg t ∈ (processGenmonMessage cfg st t p).1.registered_entities :=
    process_registers h3 hc hs
  refine ⟨?_, ?_, ?_⟩
  · rw [process_fresh h3 hc hs hni]
    rfl
  · rw [process_registered h3 hc hs hreg]
  · rw [process_registered h3 hc hs hreg, fwState_registered]

/-- Witness for C2 at a concrete topic and payload. -/
theorem c2_witness :
    (processGenmonMessage cfg0 st0 "generator/status/volts" "240 V").2.length = 1
      ∧ (processGenmonMessage cfg0
          (processGenmonMessage cfg0 st0 "generator/status/volts" "240 V").1
          "generator/status/volts" "240 V").2 = []
      ∧ (processGenmonMessage cfg0
          (processGenmonMessage cfg0 st0 "generator/status/volts" "240 V").1
          "generator/status/volts" "240 V").1.registered_entities
        = (processGenmonMessage cfg0 st0 "generator/status/volts" "240 V").1.registered_entities :=
  c2_register_idempotent cfg0 st0 "generator/status/volts" "240 V"
    (by decide) (by rfl) (by rfl) (by decide)

/-- Claim C4: a topic with fewer than 3 path segments is silently
discarded: no publish, no entity, and the process state (device
metadata and the registered set) is unchanged. -/
theorem c4_short_topic (cfg : Config) (st : DState) (t p : String)
    (h : (topicParts t).length < 3) :
    processGenmonMessage cfg st t p = (st, []) :=
  process_short h

/-- Witness for C4 at the boundary topic with exactly 2 segments. -/
theorem c4_witness :
    (topicParts "generator/status").length < 3
      ∧ processGenmonMessage cfg0 st0 "generator/status" "Online" = (st0, []) :=
  ⟨by decide, c4_short_topic cfg0 st0 "generator/status" "Online" (by decide)⟩

/-- Claim C3: the three device-metadata special cases, checked in order
on the formatted signal name: `Controller_Detected` sets the model and
absorbs the message (no publish); `Generator_Serial_Number` sets the
serial number and absorbs; `Firmware_Version` sets the firmware version
but still builds and publishes an entity; any other signal leaves the
device metadata unchanged.  The checks are case-insensitive with
respect to the original topic text because the formatted name depends
only on the lower-cased entity name. -/
theorem c3_device_metadata :
    (∀ (cfg : Config) (st : DState) (t p : String), ¬ (topicParts t).length < 3 →
        containsSub "Controller_Detected" (formattedName (entityNameOf t)) = true →
        processGenmonMessage cfg st t p = ({ st with ha_device_model := p }, []))
    ∧ (∀ (cfg : Config) (st : DState) (t p : String), ¬ (topicParts t).length < 3 →
        containsSub "Controller_Detected" (formattedName (entityNameOf t)) = false →
        containsSub "Generator_Serial_Number" (formattedName (entityNameOf t)) = true →
        processGenmonMessage cfg st t p = ({ st with ha_serial_number := p }, []))
    ∧ (∀ (cfg : Config) (st : DState) (t p : String), ¬ (topicParts t).length < 3 →
        containsSub "Controller_Detected" (formattedName (entityNameOf t)) = false →
        containsSub "Generator_Serial_Number" (formattedName (entityNameOf t)) = false →
        containsSub "Firmware_Version" (formattedName (entityNameOf t)) = true →
        uniqueIdOf cfg t ∉ st.registered_entities →
        (processGenmonMessage cfg st t p).1.ha_sw_version = p
          ∧ (processGenmonMessage cfg st t p).2.length = 1)
    ∧ (∀ (cfg : Config) (st : DState) (t p : String), ¬ (topicParts t).length < 3 →
        containsSub "Controller_Detected" (formattedName (entityNameOf t)) = false →
        containsSub "Generator_Serial_Number" (formattedName (entityNameOf t)) = false →
        containsSub "Firmware_Version" (formattedName (entityNameOf t)) = false →
        (processGenmonMessage cfg st t p).1.ha_device_model = st.ha_device_model
          ∧ (processGenmonMessage cfg st t p).1.ha_serial_number = st.ha_serial_number
          ∧ (processGenmonMessage cfg st t p).1.ha_sw_version = st.ha_sw_version)
    ∧ (∀ e1 e2 : String, e1.data.map Char.toLower = e2.data.map Char.toLower →
        formattedName e1 = formattedName e2) := by
  refine ⟨?_, ?_, ?_, ?_, ?_⟩
  · intro cfg st t p h3 hcon
    exact process_controller h3 hcon
  · intro cfg st t p h3 hc hser
    exact process_serial h3 hc hser
  · intro cfg st t p h3 hc hs hfw hni
    constructor
    · rw [process_sw h3 hc hs, fwState_sw_of_true hfw]
    · rw [process_fresh h3 hc hs hni]
      rfl
  · intro cfg st t p h3 hc hs hfw
    by_cases hin : uniqueIdOf cfg t ∈ st.registered_entities
    · rw [process_registered h3 hc hs hin, fwState_of_false hfw]
      exact ⟨rfl, rfl, rfl⟩
    · rw [process_fresh h3 hc hs hin, fwState_of_false hfw]
      exact ⟨rfl, rfl, rfl⟩
  · intro e1 e2 h
    exact formattedName_congr h

/-- Witness for C3: a `Controller_Detected` message absorbs and sets
the model, case-insensitively in the topic text. -/
theorem c3_witness :
    processGenmonMessage cfg0 st0 "generator/status/controller_detected" "Genmon Evolution"
        = ({ st0 with ha_device_model := "Genmon Evolution" }, [])
      ∧ formattedName "CONTROLLER_Detected" = formattedName "controller_detected" :=
  ⟨c3_device_metadata.1 cfg0 st0 "generator/status/controller_detected" "Genmon Evolution"
      (by decide) (by rfl),
    c3_device_metadata.2.2.2.2 "CONTROLLER_Detected" "controller_detected" (by decide)⟩

/-- Claim C5: the entity kind is chosen by the first matching rule:
boolean-token payload gives a binary sensor, else entity name `state`
or `switch_state` gives a binary sensor, else name `command` gives a
switch, else a sensor; every binary-sensor descriptor carries the fixed
mapping template (exactly the tokens Yes, ON, Online, True, true, 1
render on, everything else off) and payload_on "ON" / payload_off
"OFF". -/
theorem c5_entity_kind :
    (∀ name p : String,
        (entityTypeOf name p = "binary_sensor" ↔
          pyStrip p ∈ boolTokens ∨ name = "state" ∨ name = "switch_state")
      ∧ (entityTypeOf name p = "switch" ↔
          pyStrip p ∉ boolTokens ∧ ¬(name = "state" ∨ name = "switch_state")
            ∧ name = "command")
      ∧ (entityTypeOf name p = "sensor" ↔
          pyStrip p ∉ boolTokens ∧ ¬(name = "state" ∨ name = "switch_state")
            ∧ name ≠ "command"))
    ∧ (∀ (cfg : Config) (st : DState) (t p : String) (r : PubRecord),
        r ∈ (processGenmonMessage cfg st t p).2 → r.entity_type = "binary_sensor" →
          r.config.value_template = VTemplate.boolMap
            ∧ r.config.payload_on = some "ON" ∧ r.config.payload_off = some "OFF")
    ∧ (∀ v : String,
        (renderTemplate VTemplate.boolMap v = "ON" ↔ v ∈ boolOnTokens)
      ∧ (renderTemplate VTemplate.boolMap v = "OFF" ↔ v ∉ boolOnTokens)) := by
  refine ⟨fun name p => ?_, ?_, fun v => ?_⟩
  · unfold entityTypeOf
    by_cases h1 : pyStrip p ∈ boolTokens
    · rw [if_pos h1]
      exact ⟨iff_of_true rfl (Or.inl h1),
        iff_of_false (by decide) (fun hh => hh.1 h1),
        iff_of_false (by decide) (fun hh => hh.1 h1)⟩
    · rw [if_neg h1]
      by_cases h2 : name = "state" ∨ name = "switch_state"
      · rw [if_pos h2]
        exact ⟨iff_of_true rfl (Or.inr h2),
          iff_of_false (by decide) (fun hh => hh.2.1 h2),
          iff_of_false (by decide) (fun hh => hh.2.1 h2)⟩
      · rw [if_neg h2]
        by_cases h3 : name = "command"
        · rw [if_pos h3]
          exact ⟨iff_of_false (by decide) (fun hh => hh.elim h1 h2),
            iff_of_true rfl ⟨h1, h2, h3⟩,
            iff_of_false (by decide) (fun hh => hh.2.2 h3)⟩
        · rw [if_neg h3]
          exact ⟨iff_of_false (by decide) (fun hh => hh.elim h1 h2),
            iff_of_false (by decide) (fun hh => h3 hh.2.2),
            iff_of_true rfl ⟨h1, h2, h3⟩⟩
  · intro cfg st t p r hmem htype
    rw [mem_pubs hmem] at htype ⊢
    rw [mkPub_entity_type] at htype
    exact mkPub_binary htype
  · have hr : renderTemplate VTemplate.boolMap v = if v ∈ boolOnTokens then "ON" else "OFF" :=
      rfl
    rw [hr]
    by_cases hv : v ∈ boolOnTokens
    · rw [if_pos hv]
      exact ⟨iff_of_true rfl hv, iff_of_false (by decide) (not_not_intro hv)⟩
    · rw [if_neg hv]
      exact ⟨iff_of_false (by decide) hv, iff_of_true rfl hv⟩

/-- Witness for C5: the binary-sensor descriptor published for a
boolean payload carries the fixed mapping. -/
theorem c5_witness :
    entityTypeOf "switch_state" "Yes" = "binary_sensor"
      ∧ (mkPub cfg0 st0 "generator/status/switch_state" "Yes").config.value_template
          = VTemplate.boolMap
      ∧ (mkPub cfg0 st0 "generator/status/switch_state" "Yes").config.payload_on = some "ON"
      ∧ renderTemplate VTemplate.boolMap "Yes" = "ON" := by
  have hmem : mkPub cfg0 st0 "generator/status/switch_state" "Yes"
      ∈ (processGenmonMessage cfg0 st0 "generator/status/switch_state" "Yes").2 := by
    rw [show (processGenmonMessage cfg0 st0 "generator/status/switch_state" "Yes").2
        = [mkPub cfg0 st0 "generator/status/switch_state" "Yes"] from rfl]
    exact List.Mem.head _
  have h := c5_entity_kind.2.1 cfg0 st0 "generator/status/switch_state" "Yes" _ hmem (by rfl)
  exact ⟨(c5_entity_kind.1 "switch_state" "Yes").1.mpr (Or.inr (Or.inr rfl)),
    h.1, h.2.1, ((c5_entity_kind.2.2 "Yes").1.mpr (by decide))⟩

/-- Claim C6: sensor device-class inference evaluates in order — a name
containing due/next/date gives device class "date"; else unit "kWh"
gives "energy" with state class "total_increasing"; else unit "h", or
no unit and a runtime-flavoured name, gives "duration" with
"total_increasing"; at most one branch applies (the characterizations
below have mutually exclusive right-hand sides).  Every published
sensor carries exactly this inference, and the topic
generator/status/runtime/total with unit "h" yields device class
"duration" and state class "total_increasing". -/
theorem c6_device_class :
    (∀ (name : String) (u : Option Json),
        ((sensorClassInfo name u).1 = some "date" ↔
          anySubLower ["due", "next", "date"] name = true)
      ∧ (sensorClassInfo name u = (some "energy", some "total_increasing") ↔
          anySubLower ["due", "next", "date"] name = false ∧ unitEqStr u "kWh" = true)
      ∧ (sensorClassInfo name u = (some "duration", some "total_increasing") ↔
          anySubLower ["due", "next", "date"] name = false ∧ unitEqStr u "kWh" = false
            ∧ (unitEqStr u "h" = true
                ∨ (anySubLower ["runtime", "run_hours", "run hours", "total_run_hours"] name
                      = true
                    ∧ u = none)))
      ∧ (sensorClassInfo name u = (none, none) ↔
          anySubLower ["due", "next", "date"] name = false ∧ unitEqStr u "kWh" = false
            ∧ ¬(unitEqStr u "h" = true
                ∨ (anySubLower ["runtime", "run_hours", "run hours", "total_run_hours"] name
                      = true
                    ∧ u = none))))
    ∧ (∀ (cfg : Config) (st : DState) (t p : String) (r : PubRecord),
        r ∈ (processGenmonMessage cfg st t p).2 → r.entity_type = "sensor" →
          r.config.device_class
              = (sensorClassInfo (entityNameOf t) (getValueTemplateAndUnit p).2).1
            ∧ r.config.state_class
              = (sensorClassInfo (entityNameOf t) (getValueTemplateAndUnit p).2).2)
    ∧ (processGenmonMessage cfg0 st0 "generator/status/runtime/total" "100 h").2.map
        (fun r => (r.entity_type, r.config.device_class, r.config.state_class))
        = [("sensor", some "duration", some "total_increasing")]
    ∧ (getValueTemplateAndUnit "100 h").2 = some (Json.str "h") := by
  refine ⟨fun name u => ?_, ?_, rfl, rfl⟩
  · unfold sensorClassInfo
    by_cases hd : anySubLower ["due", "next", "date"] name = true
    · rw [if_pos hd]
      refine ⟨iff_of_true rfl hd, iff_of_false (by simp) ?_, iff_of_false (by simp) ?_,
        iff_of_false (by simp) ?_⟩
      all_goals exact fun hh => (by rw [hd] at hh; exact absurd hh.1 (by simp))
    · rw [Bool.not_eq_true] at hd
      rw [if_neg (bool_ne_true hd)]
      by_cases hk : unitEqStr u "kWh" = true
      · rw [if_pos hk]
        refine ⟨iff_of_false (by simp) (by rw [hd]; simp), iff_of_true rfl ⟨hd, hk⟩,
          iff_of_false (by simp) ?_, iff_of_false (by simp) ?_⟩
        all_goals exact fun hh => (by rw [hk] at hh; exact absurd hh.2.1 (by simp))
      · rw [Bool.not_eq_true] at hk
        rw [if_neg (bool_ne_true hk)]
        by_cases hdur : (unitEqStr u "h"
            || (anySubLower ["runtime", "run_hours", "run hours", "total_run_hours"] name
                && u.isNone)) = true
        · rw [if_pos hdur]
          rw [Bool.or_eq_true, Bool.and_eq_true, Option.isNone_iff_eq_none] at hdur
          refine ⟨iff_of_false (by simp) (by rw [hd]; simp),
            iff_of_false (by simp) (by rw [hk]; simp),
            iff_of_true rfl ⟨hd, hk, hdur⟩,
            iff_of_false (by simp) (fun hh => hh.2.2 hdur)⟩
        · rw [if_neg hdur]
          rw [Bool.or_eq_true, Bool.and_eq_true, Option.isNone_iff_eq_none] at hdur
          refine ⟨iff_of_false (by simp) (by rw [hd]; simp),
            iff_of_false (by simp) (by rw [hk]; simp),
            iff_of_false (by simp) (fun hh => hdur hh.2.2),
            iff_of_true rfl ⟨hd, hk, hdur⟩⟩
  · intro cfg st t p r hmem htype
    rw [mem_pubs hmem] at htype ⊢
    rw [mkPub_entity_type] at htype
    exact mkPub_sensor htype

/-- Witness for C6 at the duration inference. -/
theorem c6_witness :
    sensorClassInfo "runtime_total" (some (Json.str "h"))
      = (some "duration", some "total_increasing") :=
  (c6_device_class.1 "runtime_total" (some (Json.str "h"))).2.2.1.mpr
    ⟨rfl, rfl, Or.inl rfl⟩

/-- Claim C8: for a fixed (topic, payload) pair the published
descriptor's unique id and the entity kind do not depend on the process
state (repeated calls agree); the unique id moreover depends only on
the topic, not on the payload. -/
theorem c8_determinism (cfg : Config) (s1 s2 : DState) (t p1 p2 : String)
    (r1 r2 : PubRecord)
    (h1 : r1 ∈ (processGenmonMessage cfg s1 t p1).2)
    (h2 : r2 ∈ (processGenmonMessage cfg s2 t p2).2) :
    r1.config.unique_id = r2.config.unique_id
      ∧ (p1 = p2 → r1.entity_type = r2.entity_type) := by
  rw [mem_pubs h1, mem_pubs h2]
  refine ⟨?_, fun h => ?_⟩
  · rw [mkPub_unique_id, mkPub_unique_id]
  · subst h
    rfl

/-- Witness for C8: two runs from different states (and different
payloads on the same topic) publish the same unique id; with equal
payloads also the same kind. -/
theorem c8_witness :
    (mkPub cfg0 st0 "generator/status/volts" "240 V").config.unique_id
        = (mkPub cfg0 ⟨"ModelX", "Serial9", "V9", []⟩ "generator/status/volts" "Unknown").config.unique_id
      ∧ ("240 V" = "240 V" →
          (mkPub cfg0 st0 "generator/status/volts" "240 V").entity_type
            = (mkPub cfg0 st0 "generator/status/volts" "240 V").entity_type) := by
  have hm1 : mkPub cfg0 st0 "generator/status/volts" "240 V"
      ∈ (processGenmonMessage cfg0 st0 "generator/status/volts" "240 V").2 := by
    rw [show (processGenmonMessage cfg0 st0 "generator/status/volts" "240 V").2
        = [mkPub cfg0 st0 "generator/status/volts" "240 V"] from rfl]
    exact List.Mem.head _
  have hm2 : mkPub cfg0 (⟨"ModelX", "Serial9", "V9", []⟩ : DState) "generator/status/volts" "Unknown"
      ∈ (processGenmonMessage cfg0 ⟨"ModelX", "Serial9", "V9", []⟩
          "generator/status/volts" "Unknown").2 := by
    rw [show (processGenmonMessage cfg0 ⟨"ModelX", "Serial9", "V9", []⟩
          "generator/status/volts" "Unknown").2
        = [mkPub cfg0 (⟨"ModelX", "Serial9", "V9", []⟩ : DState)
            "generator/status/volts" "Unknown"] from rfl]
    exact List.Mem.head _
  refine ⟨(c8_determinism cfg0 st0 ⟨"ModelX", "Serial9", "V9", []⟩
      "generator/status/volts" "240 V" "Unknown" _ _ hm1 hm2).1, fun _ => rfl⟩

/-! ## Structure of the colon split, for claim C7 -/

theorem split2_ne_nil (a b : Char) (s : List Char) : split2 a b s ≠ [] := by
  rcases s with _ | ⟨c, s2⟩
  · simp [split2]
  rcases s2 with _ | ⟨d, cs⟩
  · simp [split2]
  · simp only [split2]
    split_ifs
    · simp
    · rcases h : split2 a b (d :: cs) with _ | ⟨h1, t1⟩ <;> simp

theorem contains_colon_append (x y : List Char) :
    containsSubL [':', ' '] (x ++ ':' :: ' ' :: y) = true := by
  induction x with
  | nil => rfl
  | cons c cs ih => simp [containsSubL, ih]

/-- Splitting on `": "` at the first occurrence: if `x` does not
contain `": "`, the split of `x ++ ": " ++ y` is `x` followed by the
split of `y` (no occurrence can straddle the boundary because the
character before the separator would have to be `':'` followed by
`':'`). -/
theorem split2_colon_append (x y : List Char) (hx : containsSubL [':', ' '] x = false) :
    split2 ':' ' ' (x ++ ':' :: ' ' :: y) = x :: split2 ':' ' ' y := by
  induction x with
  | nil =>
    show split2 ':' ' ' (':' :: ' ' :: y) = [] :: split2 ':' ' ' y
    simp [split2]
  | cons c cs ih =>
    have hx2 : containsSubL [':', ' '] cs = false := by
      have := hx
      simp only [containsSubL, Bool.or_eq_false_iff] at this
      exact this.2
    have hpre : hasPrefixL [':', ' '] (c :: cs) = false := by
      have := hx
      simp only [containsSubL, Bool.or_eq_false_iff] at this
      exact this.1
    rcases cs with _ | ⟨c2, cs2⟩
    · have hcne : ¬(c = ':' ∧ ':' = ' ') := by
        rintro ⟨-, hh⟩
        exact absurd hh (by decide)
      have hin : split2 ':' ' ' (':' :: ' ' :: y) = [] :: split2 ':' ' ' y := by
        simp [split2]
      show (if c = ':' ∧ ':' = ' ' then [] :: split2 ':' ' ' (' ' :: y)
            else match split2 ':' ' ' (':' :: ' ' :: y) with
              | h :: t => (c :: h) :: t
              | [] => [[c]]) = [c] :: split2 ':' ' ' y
      rw [if_neg hcne, hin]
    · have hcc : ¬(c = ':' ∧ c2 = ' ') := by
        rintro ⟨rfl, rfl⟩
        simp [hasPrefixL] at hpre
      have hih := ih hx2
      rw [List.cons_append] at hih
      show split2 ':' ' ' (c :: c2 :: (cs2 ++ ':' :: ' ' :: y))
          = (c :: c2 :: cs2) :: split2 ':' ' ' y
      simp only [split2, if_neg hcc]
      rw [hih]

/-- Claim C7 counterexample: for a value with two `": "` occurrences
the colon template yields the second field of the split, not the whole
text after the first occurrence. -/
theorem c7_counterexample :
    getValueTemplateAndUnit "a: b: c" = (VTemplate.colonSplit, none)
      ∧ renderTemplate VTemplate.colonSplit "a: b: c" = "b"
      ∧ renderTemplate VTemplate.colonSplit "a: b: c" ≠ "b: c" :=
  ⟨rfl, rfl, by decide⟩

/-- Claim C7 (amended): when the colon-delimited shape is chosen, the
rendering template yields the second `": "`-delimited field of the
value — the text after the first `": "` occurrence up to (not
including) the next occurrence; when splitting yields fewer than two
parts (the value does not contain `": "`), the raw value is returned
unchanged. -/
theorem c7_colon_template :
    (∀ v : String, containsSubL [':', ' '] v.data = false →
        renderTemplate VTemplate.colonSplit v = v)
    ∧ (∀ x y : String, containsSubL [':', ' '] x.data = false →
        renderTemplate VTemplate.colonSplit (x ++ ": " ++ y)
          = String.mk ((split2 ':' ' ' y.data).getD 0 [])) := by
  constructor
  · intro v hv
    simp [renderTemplate, hv]
  · intro x y hx
    have hdata : (x ++ ": " ++ y).data = x.data ++ ':' :: ' ' :: y.data := by
      rw [String.data_append, String.data_append, show (": " : String).data = [':', ' '] from rfl,
        List.append_assoc]
      rfl
    simp only [renderTemplate]
    rw [hdata, split2_colon_append x.data y.data hx, contains_colon_append x.data y.data,
      if_pos (by simp; exact List.length_pos.mpr (split2_ne_nil ':' ' ' y.data))]
    rfl

/-- Witness for C7 (amended) at a concrete key/value payload. -/
theorem c7_witness :
    renderTemplate VTemplate.colonSplit ("Battery" ++ ": " ++ "13.5 V")
        = String.mk ((split2 ':' ' ' "13.5 V".data).getD 0 [])
      ∧ renderTemplate VTemplate.colonSplit "no delimiter" = "no delimiter" :=
  ⟨c7_colon_template.2 "Battery" "13.5 V" (by decide),
    c7_colon_template.1 "no delimiter" (by decide)⟩

/-- Claim C9: every descriptor snapshots the device metadata at
registration time: a descriptor published before a firmware update
carries the old firmware version, the update sets the state's firmware
version to the payload, and a descriptor published afterwards carries
the new value. -/
theorem c9_snapshot (cfg : Config) (st : DState)
    (t1 p1 tf pf t2 p2 : String) (r1 r2 : PubRecord)
    (hr1 : r1 ∈ (processGenmonMessage cfg st t1 p1).2)
    (hfw1 : containsSub "Firmware_Version" (formattedName (entityNameOf t1)) = false)
    (h3f : ¬ (topicParts tf).length < 3)
    (hcf : containsSub "Controller_Detected" (formattedName (entityNameOf tf)) = false)
    (hsf : containsSub "Generator_Serial_Number" (formattedName (entityNameOf tf)) = false)
    (hff : containsSub "Firmware_Version" (formattedName (entityNameOf tf)) = true)
    (hr2 : r2 ∈ (processGenmonMessage cfg
        (processGenmonMessage cfg (processGenmonMessage cfg st t1 p1).1 tf pf).1 t2 p2).2)
    (hfw2 : containsSub "Firmware_Version" (formattedName (entityNameOf t2)) = false) :
    r1.config.device.sw_version = st.ha_sw_version
      ∧ (processGenmonMessage cfg (processGenmonMessage cfg st t1 p1).1 tf pf).1.ha_sw_version
          = pf
      ∧ r2.config.device.sw_version = pf := by
  have efw : (processGenmonMessage cfg (processGenmonMessage cfg st t1 p1).1 tf pf).1.ha_sw_version
      = pf := by
    rw [process_sw h3f hcf hsf, fwState_sw_of_true hff]
  refine ⟨?_, efw, ?_⟩
  · rw [mem_pubs hr1, mkPub_device]
    show (fwState st t1 p1).ha_sw_version = st.ha_sw_version
    rw [fwState_of_false hfw1]
  · rw [mem_pubs hr2, mkPub_device]
    show (fwState (processGenmonMessage cfg (processGenmonMessage cfg st t1 p1).1 tf pf).1
        t2 p2).ha_sw_version = pf
    rw [fwState_of_false hfw2]
    exact efw

/-- Claim C10: the identity derivation is not injective — post-category
segments differing only in letter case or in `'/'`-versus-`'_'`
separation (both captured by equality of the lower-cased joined entity
names) give the same unique id, so after the first such topic is
processed, processing the second publishes nothing. -/
theorem c10_identity_collision (cfg : Config) (st : DState) (t1 t2 p1 p2 : String)
    (h31 : ¬ (topicParts t1).length < 3) (h32 : ¬ (topicParts t2).length < 3)
    (hcat : categoryOf t1 = categoryOf t2)
    (hname : (entityNameOf t1).data.map Char.toLower = (entityNameOf t2).data.map Char.toLower)
    (hc : containsSub "Controller_Detected" (formattedName (entityNameOf t1)) = false)
    (hs : containsSub "Generator_Serial_Number" (formattedName (entityNameOf t1)) = false) :
    uniqueIdOf cfg t1 = uniqueIdOf cfg t2
      ∧ (processGenmonMessage cfg (processGenmonMessage cfg st t1 p1).1 t2 p2).2 = [] := by
  have hfmt : formattedName (entityNameOf t1) = formattedName (entityNameOf t2) :=
    formattedName_congr hname
  have huid : uniqueIdOf cfg t1 = uniqueIdOf cfg t2 := by
    unfold uniqueIdOf
    rw [hcat, hfmt]
  refine ⟨huid, ?_⟩
  have hreg : uniqueIdOf cfg t1 ∈ (processGenmonMessage cfg st t1 p1).1.registered_entities :=
    process_registers h31 hc hs
  rw [process_registered h32 (by rw [← hfmt]; exact hc) (by rw [← hfmt]; exact hs)
    (by rw [← huid]; exact hreg)]

/-- Witness for C1: the cascade characterization applied at a concrete
numeric payload. -/
theorem c1_witness :
    (getValueTemplateAndUnit "25.5 V").1 = VTemplate.numericExtract :=
  ((c1_cascade_order.1 "25.5 V").2.2.1).mpr ⟨rfl, rfl, rfl⟩

/-- Witness for C9: a concrete three-message run around a firmware
update. -/
theorem c9_witness :
    (mkPub cfg0 st0 "generator/status/volts" "240 V").config.device.sw_version
        = st0.ha_sw_version
      ∧ (processGenmonMessage cfg0
            (processGenmonMessage cfg0 st0 "generator/status/volts" "240 V").1
            "generator/maint/firmware_version" "V2.1").1.ha_sw_version = "V2.1"
      ∧ (mkPub cfg0
            (processGenmonMessage cfg0
              (processGenmonMessage cfg0 st0 "generator/status/volts" "240 V").1
              "generator/maint/firmware_version" "V2.1").1
            "generator/status/freq" "60 Hz").config.device.sw_version = "V2.1" := by
  have hm1 : mkPub cfg0 st0 "generator/status/volts" "240 V"
      ∈ (processGenmonMessage cfg0 st0 "generator/status/volts" "240 V").2 := by
    rw [show (processGenmonMessage cfg0 st0 "generator/status/volts" "240 V").2
        = [mkPub cfg0 st0 "generator/status/volts" "240 V"] from rfl]
    exact List.Mem.head _
  have hm2 : mkPub cfg0
        (processGenmonMessage cfg0
          (processGenmonMessage cfg0 st0 "generator/status/volts" "240 V").1
          "generator/maint/firmware_version" "V2.1").1
        "generator/status/freq" "60 Hz"
      ∈ (processGenmonMessage cfg0
          (processGenmonMessage cfg0
            (processGenmonMessage cfg0 st0 "generator/status/volts" "240 V").1
            "generator/maint/firmware_version" "V2.1").1
          "generator/status/freq" "60 Hz").2 := by
    rw [show (processGenmonMessage cfg0
          (processGenmonMessage cfg0
            (processGenmonMessage cfg0 st0 "generator/status/volts" "240 V").1
            "generator/maint/firmware_version" "V2.1").1
          "generator/status/freq" "60 Hz").2
        = [mkPub cfg0
            (processGenmonMessage cfg0
              (processGenmonMessage cfg0 st0 "generator/status/volts" "240 V").1
              "generator/maint/firmware_version" "V2.1").1
            "generator/status/freq" "60 Hz"] from rfl]
    exact List.Mem.head _
  exact c9_snapshot cfg0 st0 "generator/status/volts" "240 V"
    "generator/maint/firmware_version" "V2.1" "generator/status/freq" "60 Hz" _ _
    hm1 (by rfl) (by decide) (by rfl) (by rfl) (by rfl) hm2 (by rfl)

/-- Witness for C10: a case-variant and separator-variant pair of
topics collides, and the second is not published. -/
theorem c10_witness :
    uniqueIdOf cfg0 "generator/status/run_time" = uniqueIdOf cfg0 "generator/status/Run/Time"
      ∧ (processGenmonMessage cfg0
          (processGenmonMessage cfg0 st0 "generator/status/run_time" "1.5 h").1
          "generator/status/Run/Time" "2.5 h").2 = [] :=
  c10_identity_collision cfg0 st0 "generator/status/run_time" "generator/status/Run/Time"
    "1.5 h" "2.5 h" (by decide) (by decide) (by rfl) (by decide) (by rfl) (by rfl)

end Genmon
